import Mathlib

/-!
CloudCurio TUI installer (`ansible-installer/tui/main.go`)

A shallow embedding of the Bubble Tea program in `main.go`: the `model` record, the
transition function `Update`, and the background task bodies `startInstall`,
`getAISuggestion` and `fetchGitHubInspo`.

Modelling conventions
* Go `float64` percentages are exact rationals: the code only stores them, compares them
  with `100`, and computes `float64((i+1)*100) / float64(total)`.
* Go `int` is the 64-bit two's-complement integer; arithmetic on it goes through `wrapInt`.
* Go `error` values are strings; a nil `error` or a nil pointer is `none`.
* A Go run-time panic is the `Except.error` branch of `Except Panic _`.
* The widgets of the `bubbles` library (checkbox, progress bar, spinner, viewport, text
  input) are third-party code: they enter as the parameter `Widgets`.
* The outside world (the HTTP endpoint, the `ansible-playbook` process, the GitHub search,
  `git clone`) enters as explicit function arguments.
-/

namespace AnsibleInstaller

/-! ## Go run-time -/

/-- Go run-time panics that the modelled code can raise. -/
inductive Panic
  | nilDereference
  | sliceBounds
  | indexOutOfRange
  | typeAssertion
  deriving DecidableEq, Repr

/-- Go `error` values. -/
abbrev GoError := String

/-- Wrap-around of a 64-bit signed Go `int`. -/
def wrapInt (x : Int) : Int := (x + 2 ^ 63) % 2 ^ 64 - 2 ^ 63

/-- Dereference of a Go pointer: a nil pointer panics. -/
def deref {α : Type} : Option α → Except Panic α
  | some a => .ok a
  | none => .error .nilDereference

/-! ## GitHub data -/

/-- The part of `github.User` read by the program. -/
structure User where
  Login : Option String
  deriving DecidableEq, Repr

/-- The part of `github.Repository` read by the program (all fields are pointers). -/
structure Repository where
  Owner : Option User
  Name : Option String
  StargazersCount : Option Int
  Description : Option String
  CloneURL : Option String
  deriving DecidableEq, Repr

/-- The `*github.Client` built in `initialModel` from `GITHUB_TOKEN`. -/
structure GithubClient where
  token : String
  deriving DecidableEq, Repr

/-- A Go slice `[]*github.Repository`: the `len` visible cells and the cells of the backing
array between `len` and `cap`. -/
structure RepoSlice where
  elems : List (Option Repository)
  spare : List (Option Repository)
  deriving DecidableEq, Repr

/-- The slice expression `s[:n]`: legal up to the capacity, a panic beyond it. -/
def RepoSlice.resliceTo (s : RepoSlice) (n : Nat) : Except Panic (List (Option Repository)) :=
  if n ≤ s.elems.length + s.spare.length then .ok ((s.elems ++ s.spare).take n)
  else .error .sliceBounds

/-! ## Messages -/

/-- The `tea.Msg` values that `Update` distinguishes. -/
inductive Msg
  | WindowSizeMsg (Width Height : Int)
  | KeyMsg (key : String)
  | spinnerTickMsg (tick : Nat)
  | progressFrameMsg (frame : Nat)
  | installProgressMsg (percentage : ℚ)
  | errorMsg (err : Option GoError)
  | githubInspoMsg (repos : List (Option Repository))
  | scriptMsg (script : String)
  | other (tag : Nat)
  deriving DecidableEq, Repr

/-! ## Widgets of the component library -/

/-- The `bubbles` components used by the program, as an interface. -/
structure Widgets where
  Checkbox : Type
  Progress : Type
  Spinner : Type
  Viewport : Type
  TextInput : Type
  WCmd : Type
  checkboxValues : Checkbox → List String
  checkboxUpdate : Checkbox → Msg → Checkbox × Option WCmd
  progressSetWidth : Progress → Int → Progress
  progressUpdate : Progress → Nat → Progress × Option WCmd
  progressSetPercent : Progress → ℚ → Progress
  spinnerUpdate : Spinner → Nat → Spinner × Option WCmd
  viewportSetWidth : Viewport → Int → Viewport
  viewportSetHeight : Viewport → Int → Viewport
  viewportSetContent : Viewport → String → Viewport
  textinputSetWidth : TextInput → Int → TextInput
  textinputValue : TextInput → String
  textinputUpdate : TextInput → Msg → TextInput × Option WCmd

/-! ## Application state -/

/-- The `model` struct. -/
structure model (W : Widgets) where
  choices : List String
  checkboxes : W.Checkbox
  cursor : Int
  progress : W.Progress
  spinner : W.Spinner
  viewport : W.Viewport
  textinput : W.TextInput
  aiSuggestion : String
  plugins : List String
  scripts : List String
  installing : Bool
  percentage : ℚ
  githubClient : Option GithubClient
  err : Option GoError
  width : Int
  height : Int

/-- The `tea.Cmd` values that `Update` can request: the two task closures of the program
(with what they capture) and the commands handed back by widgets. -/
inductive Cmd (W : Widgets)
  | startInstall (selected : List String)
  | fetchGitHubInspo (client : Option GithubClient)
  | widget (c : W.WCmd)

/-- The function `tea.Batch`: nil commands are dropped; the batch of no command is nil, which
is the empty list here. -/
def teaBatch {W : Widgets} (cmds : List (Option (Cmd W))) : List (Cmd W) :=
  cmds.filterMap id

/-! ## Key bindings -/

def enterKey : List String := ["enter"]
def upKey : List String := ["up", "k"]
def downKey : List String := ["down", "j"]
def aiKey : List String := ["a"]
def gitKey : List String := ["g"]
def plugKey : List String := ["p"]

/-- The function `key.Matches` for one binding: the key pressed is one of the binding keys. -/
def keyMatches (msg : String) (binding : List String) : Bool := binding.contains msg

/-! ## Suggestion endpoint -/

/-- Values produced by `encoding/json` when decoding into `interface{}`. -/
inductive Json
  | null
  | bool (b : Bool)
  | number (n : ℚ)
  | string (s : String)
  | array (xs : List Json)
  | object (kvs : List (String × Json))

/-- A response body as read by `io.ReadAll`: text that is not JSON, or a JSON document. -/
inductive Body
  | notJson (text : String)
  | json (v : Json)

/-- Outcome of `http.Post`: a transport error, or a response with its body. -/
inductive PostOutcome
  | failed (err : GoError)
  | response (body : Body)

/-- A Go map lookup `m[k]` on a decoded object; with a repeated key the decoder keeps the
last value. A missing key gives the nil interface, `none`. -/
def mapIndex (kvs : List (String × Json)) (k : String) : Option Json :=
  (kvs.reverse.find? (fun kv => kv.1 == k)).map Prod.snd

/-- The call `json.Unmarshal(body, &result)` with `result` a nil `map[string]interface{}`
and the returned error dropped: only a JSON object fills the map. -/
def unmarshalMap : Body → List (String × Json)
  | .json (.object kvs) => kvs
  | _ => []

/-- Type assertion `x.([]interface{})`. -/
def assertArray : Option Json → Except Panic (List Json)
  | some (.array xs) => .ok xs
  | _ => .error .typeAssertion

/-- Type assertion `x.(map[string]interface{})`. -/
def assertMap : Option Json → Except Panic (List (String × Json))
  | some (.object kvs) => .ok kvs
  | _ => .error .typeAssertion

/-- Type assertion `x.(string)`. -/
def assertString : Option Json → Except Panic String
  | some (.string s) => .ok s
  | _ => .error .typeAssertion

/-- Index expression `xs[0]`. -/
def indexZero : List Json → Except Panic Json
  | x :: _ => .ok x
  | [] => .error .indexOutOfRange

/-- The method `getAISuggestion`: posts the prompt and digs the first choice out of the
response. The result is the Go pair `(string, error)`, or a panic. -/
def getAISuggestion (httpPost : String → PostOutcome) (prompt : String) :
    Except Panic (String × Option GoError) :=
  match httpPost ("Suggest install for: " ++ prompt ++ " in CloudCurio") with
  | .failed err => .ok ("", some err)
  | .response body =>
    let result := unmarshalMap body
    match assertArray (mapIndex result "choices") with
    | .error p => .error p
    | .ok choices =>
      match indexZero choices with
      | .error p => .error p
      | .ok first =>
        match assertMap (some first) with
        | .error p => .error p
        | .ok choice =>
          match assertMap (mapIndex choice "message") with
          | .error p => .error p
          | .ok message =>
            match assertString (mapIndex message "content") with
            | .error p => .error p
            | .ok content => .ok (content, none)

/-! ## Rendering helpers called from `Update` -/

/-- The method `renderPlugins`. -/
def renderPlugins (plugins : List String) : String :=
  plugins.foldl (fun s p => s ++ (p ++ " ")) ""

/-- One line of `renderInspo`; every field is read through a pointer. -/
def renderRepo (r : Option Repository) : Except Panic String :=
  match deref r with
  | .error p => .error p
  | .ok r =>
    match deref r.Owner with
    | .error p => .error p
    | .ok owner =>
      match deref owner.Login, deref r.Name, deref r.StargazersCount, deref r.Description with
      | .ok login, .ok name, .ok stars, .ok desc =>
        .ok ("- " ++ login ++ "/" ++ name ++ " (" ++ toString stars ++ " stars): " ++ desc ++ "\n")
      | _, _, _, _ => .error .nilDereference

/-- The method `renderInspo`. -/
def renderInspo : List (Option Repository) → Except Panic String
  | [] => .ok ""
  | r :: rest =>
    match renderRepo r with
    | .error p => .error p
    | .ok line =>
      match renderInspo rest with
      | .error p => .error p
      | .ok tail => .ok (line ++ tail)

/-! ## The transition function -/

/-- What the `switch` statement of `Update` leaves behind: the early `return m, nil` of the
cancel branch, or the state together with the commands appended so far. -/
inductive Switched (W : Widgets)
  | returned (m : model W)
  | fell (m : model W) (cmds : List (Option (Cmd W)))

/-- The `case tea.KeyMsg` arm of `Update`. -/
def updateKey (W : Widgets) (httpPost : String → PostOutcome) (m : model W) (key : String) :
    Except Panic (Switched W) :=
  if keyMatches key enterKey then
    if m.installing then
      .ok (.returned { m with installing := false })
    else
      let selected := W.checkboxValues m.checkboxes
      if selected.length > 0 then
        .ok (.fell { m with installing := true, percentage := 0 } [some (.startInstall selected)])
      else
        .ok (.fell m [])
  else if keyMatches key upKey then
    let cursor := wrapInt (m.cursor - 1)
    .ok (.fell { m with cursor := if cursor < 0 then (m.choices.length : Int) - 1 else cursor } [])
  else if keyMatches key downKey then
    let cursor := wrapInt (m.cursor + 1)
    .ok (.fell { m with cursor := if cursor ≥ (m.choices.length : Int) then 0 else cursor } [])
  else if keyMatches key aiKey then
    let prompt := W.textinputValue m.textinput
    if prompt ≠ "" then
      match getAISuggestion httpPost prompt with
      | .error p => .error p
      | .ok (_, some err) => .ok (.fell { m with err := some err } [])
      | .ok (suggestion, none) => .ok (.fell { m with aiSuggestion := suggestion } [])
    else
      .ok (.fell m [])
  else if keyMatches key gitKey then
    .ok (.fell m [some (.fetchGitHubInspo m.githubClient)])
  else if keyMatches key plugKey then
    .ok (.fell { m with viewport := W.viewportSetContent m.viewport (renderPlugins m.plugins) } [])
  else
    let r := W.textinputUpdate m.textinput (.KeyMsg key)
    .ok (.fell { m with textinput := r.1 } [r.2.map .widget])

/-- The `switch msg := msg.(type)` statement of `Update`. -/
def updateSwitch (W : Widgets) (httpPost : String → PostOutcome) (m : model W) (msg : Msg) :
    Except Panic (Switched W) :=
  match msg with
  | .WindowSizeMsg width height =>
    .ok (.fell
      { m with
        width := width
        height := height
        progress := W.progressSetWidth m.progress (wrapInt (width - 4))
        viewport := W.viewportSetHeight (W.viewportSetWidth m.viewport width) (wrapInt (height - 10))
        textinput := W.textinputSetWidth m.textinput (wrapInt (width - 4)) } [])
  | .KeyMsg key => updateKey W httpPost m key
  | .spinnerTickMsg tick =>
    let r := W.spinnerUpdate m.spinner tick
    .ok (.fell { m with spinner := r.1 } [r.2.map .widget])
  | .progressFrameMsg frame =>
    let r := W.progressUpdate m.progress frame
    .ok (.fell { m with progress := r.1 } [r.2.map .widget])
  | .installProgressMsg percentage =>
    let m1 : model W := { m with percentage := percentage }
    let m2 : model W :=
      if m1.percentage ≥ 100 then { m1 with installing := false, percentage := 0 } else m1
    .ok (.fell { m2 with progress := W.progressSetPercent m2.progress (m2.percentage / 100) } [])
  | .errorMsg err => .ok (.fell { m with err := err } [])
  | .githubInspoMsg repos =>
    match renderInspo repos with
    | .error p => .error p
    | .ok content => .ok (.fell { m with viewport := W.viewportSetContent m.viewport content } [])
  | .scriptMsg script => .ok (.fell { m with scripts := m.scripts ++ [script] } [])
  | .other _ => .ok (.fell m [])

/-- The method `Update`: the new state and the commands of the returned `tea.Cmd`
(`[]` is the nil command). The argument `httpPost` is the suggestion endpoint that
`getAISuggestion` talks to. -/
def Update (W : Widgets) (httpPost : String → PostOutcome) (m : model W) (msg : Msg) :
    Except Panic (model W × List (Cmd W)) :=
  match updateSwitch W httpPost m msg with
  | .error p => .error p
  | .ok (.returned m1) => .ok (m1, [])
  | .ok (.fell m1 cmds) =>
    if !m1.installing then
      .ok (m1, teaBatch (cmds ++ [(W.checkboxUpdate m1.checkboxes msg).2.map .widget]))
    else
      .ok (m1, teaBatch cmds)

/-- The event loop of the runtime: messages are applied by `Update` in arrival order. -/
def runMsgs (W : Widgets) (httpPost : String → PostOutcome) :
    model W → List Msg → Except Panic (model W)
  | m, [] => .ok m
  | m, msg :: rest =>
    match Update W httpPost m msg with
    | .error p => .error p
    | .ok (m1, _) => runMsgs W httpPost m1 rest

/-! ## Background tasks -/

/-- The closure returned by `startInstall`, run against the install mechanism `ansible`
(`none` is a successful `ansible-playbook` run). The body of the `for` loop returns on every
path, so only the first item of `selected` is ever reached. The result is the list of items
the mechanism was invoked for, and the message produced. -/
def startInstall (ansible : String → Option GoError) (selected : List String) :
    List String × Msg :=
  let total := selected.length
  match selected.enum with
  | [] => ([], .installProgressMsg 100)
  | (i, item) :: _ =>
    match ansible item with
    | some err => ([item], .errorMsg (some err))
    | none => ([item], .installProgressMsg ((((i + 1) * 100 : Nat) : ℚ) / (total : ℚ)))

/-- The loop `for i, repo := range repos.Repositories[:3]` of `fetchGitHubInspo`, from index
`i` on: the directories copied to `examples/`. -/
def cloneTop (clone : Nat → String → Bool) : Nat → List (Option Repository) →
    Except Panic (List String)
  | _, [] => .ok []
  | i, repo :: rest =>
    match deref repo with
    | .error p => .error p
    | .ok r =>
      match deref r.CloneURL with
      | .error p => .error p
      | .ok url =>
        match cloneTop clone (i + 1) rest with
        | .error p => .error p
        | .ok copies =>
          .ok (if clone i url then ("examples/bubbletea-" ++ toString (i + 1)) :: copies
               else copies)

/-- The closure returned by `fetchGitHubInspo`, run against the search service and
`git clone`: the directories copied and the message produced, or a panic. -/
def fetchGitHubInspo (search : GithubClient → Except GoError RepoSlice)
    (clone : Nat → String → Bool) (client : Option GithubClient) :
    Except Panic (List String × Msg) :=
  match client with
  | none => .ok ([], .errorMsg (some "No GitHub token"))
  | some c =>
    match search c with
    | .error err => .ok ([], .errorMsg (some err))
    | .ok repos =>
      match repos.resliceTo 3 with
      | .error p => .error p
      | .ok top =>
        match cloneTop clone 0 top with
        | .error p => .error p
        | .ok copies => .ok (copies, .githubInspoMsg repos.elems)

/-! ## A concrete instance -/

/-- A minimal widget set: a checkbox list is the list of its checked values, a text input is
its text, the other widgets carry no state and no widget emits a command. -/
def listWidgets : Widgets where
  Checkbox := List String
  Progress := Unit
  Spinner := Unit
  Viewport := String
  TextInput := String
  WCmd := Unit
  checkboxValues := fun c => c
  checkboxUpdate := fun c _ => (c, none)
  progressSetWidth := fun p _ => p
  progressUpdate := fun p _ => (p, none)
  progressSetPercent := fun p _ => p
  spinnerUpdate := fun s _ => (s, none)
  viewportSetWidth := fun v _ => v
  viewportSetHeight := fun v _ => v
  viewportSetContent := fun _ s => s
  textinputSetWidth := fun t _ => t
  textinputValue := fun t => t
  textinputUpdate := fun t _ => (t, none)

/-- The list `softwareList`. -/
def softwareList : List String :=
  ["Node.js", "PNPM", "PostgreSQL", "Supabase", "Ollama", "LocalAI", "OpenWebUI", "LiteLLM",
   "Forgejo", "Tailscale", "ZeroTier", "Prometheus", "Grafana", "RabbitMQ", "Neo4j",
   "LocalRecall", "Fluentd", "Kong", "Traefik"]

/-- The state built by `initialModel` over `listWidgets`, with the given checked items, text
in the text input and no GitHub token. -/
def sampleModel (checked : List String) (text : String) : model listWidgets where
  choices := softwareList
  checkboxes := checked
  cursor := 0
  progress := ()
  spinner := ()
  viewport := ""
  textinput := text
  aiSuggestion := "AI ready: Ask for install suggestions..."
  plugins := ["litellm", "ollama", "localai"]
  scripts := ["cloudcurio_worker_install.sh", "bootstrap.sh"]
  installing := false
  percentage := 0
  githubClient := none
  err := none
  width := 0
  height := 0

/-- An endpoint that is down. -/
def endpointDown : String → PostOutcome := fun _ => .failed "connection refused"

/-- An install mechanism that succeeds on every item. -/
def ansibleOk : String → Option GoError := fun _ => none

/-- An endpoint that answers every request with a well-formed completion. -/
def endpointUp : String → PostOutcome := fun _ =>
  .response (.json (.object [("choices", .array [.object [("message",
    .object [("content", .string "Install Ollama first")])]])]))

/-- An endpoint that is down for the request of the prompt "llm" and up for the others. -/
def endpointDownForLlm : String → PostOutcome := fun request =>
  if request = "Suggest install for: llm in CloudCurio" then .failed "connection refused"
  else endpointUp request

/-- A search hit with every field present. -/
def repoBubbletea : Repository where
  Owner := some ⟨some "charmbracelet"⟩
  Name := some "bubbletea"
  StargazersCount := some 27000
  Description := some "A powerful little TUI framework"
  CloneURL := some "https://github.com/charmbracelet/bubbletea.git"

/-- A second search hit with every field present. -/
def repoBubbles : Repository where
  Owner := some ⟨some "charmbracelet"⟩
  Name := some "bubbles"
  StargazersCount := some 5000
  Description := some "TUI components for Bubble Tea"
  CloneURL := some "https://github.com/charmbracelet/bubbles.git"

/-! ## Theorems -/

section Lemmas

variable (W : Widgets) (httpPost : String → PostOutcome)

theorem keyMatches_enter : keyMatches "enter" enterKey = true := by decide

/-- The Enter key while an install is running: the early return. -/
theorem updateSwitch_enter_installing (m : model W) (h : m.installing = true) :
    updateSwitch W httpPost m (.KeyMsg "enter") = .ok (.returned { m with installing := false }) := by
  simp [updateSwitch, updateKey, keyMatches_enter, h]

/-- The Enter key while idle with a non-empty selection. -/
theorem updateSwitch_enter_idle_selected (m : model W) (h : m.installing = false)
    (hsel : W.checkboxValues m.checkboxes ≠ []) :
    updateSwitch W httpPost m (.KeyMsg "enter") =
      .ok (.fell { m with installing := true, percentage := 0 }
        [some (.startInstall (W.checkboxValues m.checkboxes))]) := by
  have hlen : 0 < (W.checkboxValues m.checkboxes).length := List.length_pos.mpr hsel
  simp [updateSwitch, updateKey, keyMatches_enter, h, hlen]

/-- The Enter key while idle with an empty selection. -/
theorem updateSwitch_enter_idle_empty (m : model W) (h : m.installing = false)
    (hsel : W.checkboxValues m.checkboxes = []) :
    updateSwitch W httpPost m (.KeyMsg "enter") = .ok (.fell m []) := by
  simp [updateSwitch, updateKey, keyMatches_enter, h, hsel]

/-- A progress message never panics; it overwrites `percentage`, closes the run at 100 or
more, and leaves the other application fields alone. -/
theorem update_installProgress (m : model W) (p : ℚ) :
    ∃ m1 cmds, Update W httpPost m (.installProgressMsg p) = .ok (m1, cmds) ∧
      m1.installing = (if 100 ≤ p then false else m.installing) ∧
      m1.percentage = (if 100 ≤ p then 0 else p) ∧
      m1.err = m.err ∧ m1.scripts = m.scripts ∧ m1.cursor = m.cursor := by
  by_cases hp : 100 ≤ p
  · simp [Update, updateSwitch, hp]
  · cases hi : m.installing <;> simp [Update, updateSwitch, hp, hi]

/-- An error message never panics; it only stores the error. -/
theorem update_errorMsg (m : model W) (e : Option GoError) :
    ∃ cmds, Update W httpPost m (.errorMsg e) = .ok ({ m with err := e }, cmds) ∧
      (m.installing = true → cmds = []) := by
  cases hi : m.installing <;> simp [Update, updateSwitch, hi, teaBatch]

/-- A script message never panics; it appends the name. -/
theorem update_scriptMsg (m : model W) (s : String) :
    ∃ cmds, Update W httpPost m (.scriptMsg s) =
      .ok ({ m with scripts := m.scripts ++ [s] }, cmds) := by
  cases hi : m.installing <;> simp [Update, updateSwitch, hi]

/-- Running a message list in two parts. -/
theorem runMsgs_append (m : model W) (xs ys : List Msg) :
    runMsgs W httpPost m (xs ++ ys) =
      match runMsgs W httpPost m xs with
      | .error p => .error p
      | .ok m1 => runMsgs W httpPost m1 ys := by
  induction xs generalizing m with
  | nil => simp [runMsgs]
  | cons x xs ih =>
    simp only [List.cons_append, runMsgs]
    cases hx : Update W httpPost m x with
    | error p => simp
    | ok r => obtain ⟨m1, c⟩ := r; simpa using ih m1

/-- A run of progress messages never panics. -/
theorem runMsgs_progress_ok (m : model W) (ps : List ℚ) :
    ∃ m1, runMsgs W httpPost m (ps.map Msg.installProgressMsg) = .ok m1 := by
  induction ps generalizing m with
  | nil => exact ⟨m, rfl⟩
  | cons p ps ih =>
    obtain ⟨m1, cmds, h1, -⟩ := update_installProgress W httpPost m p
    obtain ⟨m2, h2⟩ := ih m1
    exact ⟨m2, by simp [runMsgs, h1, h2]⟩

/-- A run of progress messages whose last one reports 100 or more ends idle at 0. -/
theorem runMsgs_progress_last (m : model W) (ps : List ℚ) (p : ℚ) (hp : 100 ≤ p) :
    ∃ m1, runMsgs W httpPost m ((ps ++ [p]).map Msg.installProgressMsg) = .ok m1 ∧
      m1.installing = false ∧ m1.percentage = 0 := by
  obtain ⟨m0, h0⟩ := runMsgs_progress_ok W httpPost m ps
  obtain ⟨m1, cmds, h1, hi, hq, -⟩ := update_installProgress W httpPost m0 p
  refine ⟨m1, ?_, by simpa [hp] using hi, by simpa [hp] using hq⟩
  rw [List.map_append, runMsgs_append, h0]
  simp [runMsgs, h1]

/-- The suggestion binding matches the key "a" only. -/
theorem keyMatches_aiKey (key : String) : keyMatches key aiKey = true ↔ key = "a" := by
  simp [keyMatches, aiKey, eq_comm]

/-- The key arm consults the endpoint only through the request sent for the current prompt. -/
theorem updateKey_congr (w1 w2 : String → PostOutcome) (m : model W) (key : String)
    (h : key = "a" → W.textinputValue m.textinput ≠ "" →
      w1 ("Suggest install for: " ++ W.textinputValue m.textinput ++ " in CloudCurio") =
        w2 ("Suggest install for: " ++ W.textinputValue m.textinput ++ " in CloudCurio")) :
    updateKey W w1 m key = updateKey W w2 m key := by
  by_cases hk : key = "a"
  · by_cases hp : W.textinputValue m.textinput = ""
    · simp [updateKey, hp]
    · simp [updateKey, getAISuggestion, h hk hp]
  · have hno : keyMatches key aiKey = false := by
      cases hm : keyMatches key aiKey
      · rfl
      · exact absurd ((keyMatches_aiKey key).mp hm) hk
    simp [updateKey, hno]

/-- The suggestion key with a non-empty prompt and an endpoint that is unreachable. -/
theorem updateSwitch_ai_failed (m : model W) (e : GoError)
    (hp : W.textinputValue m.textinput ≠ "")
    (hw : httpPost ("Suggest install for: " ++ W.textinputValue m.textinput ++ " in CloudCurio") =
      .failed e) :
    updateSwitch W httpPost m (.KeyMsg "a") = .ok (.fell { m with err := some e } []) := by
  have h1 : keyMatches "a" enterKey = false := by decide
  have h2 : keyMatches "a" upKey = false := by decide
  have h3 : keyMatches "a" downKey = false := by decide
  have h4 : keyMatches "a" aiKey = true := by decide
  simp [updateSwitch, updateKey, h1, h2, h3, h4, hp, getAISuggestion, hw]

/-- The suggestion key with a non-empty prompt and a well-formed answer. -/
theorem updateSwitch_ai_answered (m : model W) (text : String)
    (hp : W.textinputValue m.textinput ≠ "")
    (hw : httpPost ("Suggest install for: " ++ W.textinputValue m.textinput ++ " in CloudCurio") =
      .response (.json (.object [("choices", .array [.object [("message",
        .object [("content", .string text)])]])]))) :
    updateSwitch W httpPost m (.KeyMsg "a") = .ok (.fell { m with aiSuggestion := text } []) := by
  have h1 : keyMatches "a" enterKey = false := by decide
  have h2 : keyMatches "a" upKey = false := by decide
  have h3 : keyMatches "a" downKey = false := by decide
  have h4 : keyMatches "a" aiKey = true := by decide
  simp [updateSwitch, updateKey, h1, h2, h3, h4, hp, getAISuggestion, hw, unmarshalMap, mapIndex,
    assertArray, assertMap, assertString, indexZero]

end Lemmas

/-- C5: while an install is running, the Enter key yields the same state with `installing`
set to false (every other field, among them the checkboxes, percentage, err, scripts,
aiSuggestion and cursor, is untouched) and the nil command. -/
theorem update_enter_cancels (W : Widgets) (httpPost : String → PostOutcome) (m : model W)
    (h : m.installing = true) :
    Update W httpPost m (.KeyMsg "enter") = .ok ({ m with installing := false }, []) := by
  simp [Update, updateSwitch_enter_installing W httpPost m h]

theorem update_enter_cancels_witness :
    ({ sampleModel ["Node.js"] "" with installing := true, percentage := 50 } :
        model listWidgets).installing = true ∧
      Update listWidgets endpointDown
          { sampleModel ["Node.js"] "" with installing := true, percentage := 50 }
          (.KeyMsg "enter") =
        .ok ({ sampleModel ["Node.js"] "" with installing := false, percentage := 50 }, []) :=
  ⟨rfl, update_enter_cancels listWidgets endpointDown _ rfl⟩

/-- C6: while idle, the Enter key with a non-empty selection yields `installing = true`,
`percentage = 0` and exactly one command, the install task over the selection at that
instant; with an empty selection the state is unchanged (`installing` stays false) and no
install task is among the commands. -/
theorem update_enter_starts (W : Widgets) (httpPost : String → PostOutcome) (m : model W)
    (h : m.installing = false) :
    (W.checkboxValues m.checkboxes ≠ [] →
      Update W httpPost m (.KeyMsg "enter") =
        .ok ({ m with installing := true, percentage := 0 },
          [Cmd.startInstall (W.checkboxValues m.checkboxes)])) ∧
    (W.checkboxValues m.checkboxes = [] →
      ∃ cmds, Update W httpPost m (.KeyMsg "enter") = .ok (m, cmds) ∧
        m.installing = false ∧ ∀ selected, Cmd.startInstall selected ∉ cmds) := by
  constructor
  · intro hsel
    simp [Update, updateSwitch_enter_idle_selected W httpPost m h hsel, teaBatch]
  · intro hsel
    refine ⟨teaBatch [(W.checkboxUpdate m.checkboxes (.KeyMsg "enter")).2.map .widget], ?_, h, ?_⟩
    · simp [Update, updateSwitch_enter_idle_empty W httpPost m h hsel, h]
    · intro selected
      cases hc : (W.checkboxUpdate m.checkboxes (.KeyMsg "enter")).2 <;> simp [teaBatch]

theorem update_enter_starts_witness :
    (sampleModel ["Node.js", "Ollama"] "").installing = false ∧
      Update listWidgets endpointDown (sampleModel ["Node.js", "Ollama"] "") (.KeyMsg "enter") =
        .ok ({ sampleModel ["Node.js", "Ollama"] "" with installing := true, percentage := 0 },
          [Cmd.startInstall ["Node.js", "Ollama"]]) :=
  ⟨rfl, (update_enter_starts listWidgets endpointDown _ rfl).1 (by simp [listWidgets, sampleModel])⟩

/-- C2 as stated fails: start an install of two items, cancel it, then deliver the progress
message that the cancelled job emits (50): `percentage` moves from 0 to 50. -/
theorem stale_progress_changes_percentage :
    ∃ m2 m3 cmds,
      runMsgs listWidgets endpointDown (sampleModel ["Node.js", "Ollama"] "")
        [.KeyMsg "enter", .KeyMsg "enter"] = .ok m2 ∧
      Update listWidgets endpointDown m2 (startInstall ansibleOk ["Node.js", "Ollama"]).2 =
        .ok (m3, cmds) ∧
      m2.percentage = 0 ∧ m3.percentage = 50 ∧ m3.percentage ≠ m2.percentage := by
  refine ⟨{ sampleModel ["Node.js", "Ollama"] "" with installing := false, percentage := 0 },
    { sampleModel ["Node.js", "Ollama"] "" with installing := false, percentage := 50 }, [],
    ?_, ?_, rfl, rfl, by norm_num⟩
  · simp [runMsgs, Update, updateSwitch, updateKey, keyMatches_enter, sampleModel, listWidgets,
      teaBatch]
  · have h50 : ((100 : ℚ) / 2) = 50 := by norm_num
    have hlt : ¬ ((100 : ℚ) ≤ 50) := by norm_num
    simp [startInstall, ansibleOk, List.enum, List.enumFrom, Update, updateSwitch, sampleModel,
      listWidgets, teaBatch, h50, hlt]

/-- C2 amended: after starting an install and cancelling it, a late progress message `p`
never panics and leaves installing (false), err, scripts and cursor as they were, while
percentage (0 after the cancel) becomes `p` when `p < 100` and stays 0 when `100 ≤ p`. -/
theorem stale_progress_after_cancel (W : Widgets) (httpPost : String → PostOutcome)
    (m : model W) (p : ℚ) (h : m.installing = false)
    (hsel : W.checkboxValues m.checkboxes ≠ []) :
    ∃ m2 m3 cmds,
      runMsgs W httpPost m [.KeyMsg "enter", .KeyMsg "enter"] = .ok m2 ∧
      Update W httpPost m2 (.installProgressMsg p) = .ok (m3, cmds) ∧
      m2.installing = false ∧ m3.installing = m2.installing ∧ m3.err = m2.err ∧
      m3.scripts = m2.scripts ∧ m3.cursor = m2.cursor ∧
      m2.percentage = 0 ∧ m3.percentage = (if 100 ≤ p then 0 else p) := by
  have hrun : runMsgs W httpPost m [.KeyMsg "enter", .KeyMsg "enter"] =
      .ok { m with installing := false, percentage := 0 } := by
    simp [runMsgs, Update, updateSwitch_enter_idle_selected W httpPost m h hsel,
      updateSwitch_enter_installing]
  obtain ⟨m3, cmds, h3, hi, hq, he, hs, hc⟩ :=
    update_installProgress W httpPost { m with installing := false, percentage := 0 } p
  refine ⟨_, m3, cmds, hrun, h3, rfl, ?_, he, hs, hc, rfl, hq⟩
  rw [hi]; simp

theorem stale_progress_after_cancel_witness :
    ∃ m2 m3 cmds,
      runMsgs listWidgets endpointDown (sampleModel ["Node.js", "Ollama"] "")
        [.KeyMsg "enter", .KeyMsg "enter"] = .ok m2 ∧
      Update listWidgets endpointDown m2 (.installProgressMsg 50) = .ok (m3, cmds) ∧
      m2.installing = false ∧ m3.installing = m2.installing ∧ m3.err = m2.err ∧
      m3.scripts = m2.scripts ∧ m3.cursor = m2.cursor ∧
      m2.percentage = 0 ∧ m3.percentage = (if (100 : ℚ) ≤ 50 then 0 else 50) :=
  stale_progress_after_cancel listWidgets endpointDown (sampleModel ["Node.js", "Ollama"] "") 50
    rfl (by simp [listWidgets, sampleModel])

/-- C3 fails on the code: with an install running, the failure message that `startInstall`
emits for a failing item is stored in `err` but `installing` stays true, where the claim says
it becomes false. The job has ended, yet the state still reads as installing: the next Enter
key only takes the cancel branch, clearing the flag without requesting a task. -/
theorem install_failure_keeps_installing :
    startInstall (fun _ => some "exit status 2") ["Node.js"] =
      (["Node.js"], .errorMsg (some "exit status 2")) ∧
    Update listWidgets endpointDown { sampleModel ["Node.js"] "" with installing := true }
        (startInstall (fun _ => some "exit status 2") ["Node.js"]).2 =
      .ok ({ sampleModel ["Node.js"] "" with installing := true, err := some "exit status 2" },
        []) ∧
    ({ sampleModel ["Node.js"] "" with installing := true, err := some "exit status 2" } :
      model listWidgets).installing ≠ false ∧
    Update listWidgets endpointDown
        { sampleModel ["Node.js"] "" with installing := true, err := some "exit status 2" }
        (.KeyMsg "enter") =
      .ok ({ sampleModel ["Node.js"] "" with installing := false, err := some "exit status 2" },
        []) := by
  refine ⟨?_, ?_, ?_, ?_⟩
  · simp [startInstall, List.enum, List.enumFrom]
  · simp [startInstall, List.enum, List.enumFrom, Update, updateSwitch, sampleModel, teaBatch]
  · simp [sampleModel]
  · simp [Update, updateSwitch, updateKey, keyMatches_enter, sampleModel]

/-- C4 as stated fails: for N = 1 the single message `installProgressMsg{100}` ends the run
with `percentage` reset to 0, not 100. -/
theorem progress_run_percentage_not_100 :
    ∃ m1, runMsgs listWidgets endpointDown { sampleModel ["Node.js"] "" with installing := true }
        ((List.range' 1 1).map (fun k => Msg.installProgressMsg (100 * (k : ℚ) / ((1 : Nat) : ℚ)))) =
          .ok m1 ∧
      m1.installing = false ∧ m1.percentage = 0 ∧ m1.percentage ≠ 100 := by
  refine ⟨{ sampleModel ["Node.js"] "" with installing := false, percentage := 0 }, ?_, rfl, rfl,
    by norm_num⟩
  simp [List.range', runMsgs, Update, updateSwitch, sampleModel, listWidgets, teaBatch]

/-- C4 amended: for every N ≥ 1 and every state with an install running, the N progress
messages `installProgressMsg{100*k/N}`, k = 1..N, are all accepted without a panic and leave
`installing = false` and `percentage = 0`. -/
theorem progress_run_closes (W : Widgets) (httpPost : String → PostOutcome) (m : model W)
    (N : Nat) (hN : 1 ≤ N) (_h : m.installing = true) :
    ∃ m1, runMsgs W httpPost m
        ((List.range' 1 N).map (fun k => Msg.installProgressMsg (100 * (k : ℚ) / (N : ℚ)))) =
          .ok m1 ∧
      m1.installing = false ∧ m1.percentage = 0 := by
  obtain ⟨n, rfl⟩ : ∃ n, N = n + 1 := ⟨N - 1, by omega⟩
  have hne : ((n + 1 : Nat) : ℚ) ≠ 0 := by exact_mod_cast Nat.succ_ne_zero n
  have hlast : (100 : ℚ) ≤ 100 * ((1 + n : Nat) : ℚ) / ((n + 1 : Nat) : ℚ) := by
    rw [Nat.add_comm 1 n, mul_div_assoc, div_self hne]; norm_num
  obtain ⟨m1, h1, hi, hq⟩ := runMsgs_progress_last W httpPost m
    ((List.range' 1 n).map (fun k => 100 * (k : ℚ) / ((n + 1 : Nat) : ℚ)))
    (100 * ((1 + n : Nat) : ℚ) / ((n + 1 : Nat) : ℚ)) hlast
  refine ⟨m1, ?_, hi, hq⟩
  rw [← h1, List.range'_concat]
  simp [List.map_append, List.map_map, Function.comp_def]

theorem progress_run_closes_witness :
    ∃ m1, runMsgs listWidgets endpointDown { sampleModel ["Node.js", "Ollama"] "" with installing := true }
        ((List.range' 1 2).map (fun k => Msg.installProgressMsg (100 * (k : ℚ) / ((2 : Nat) : ℚ)))) =
          .ok m1 ∧
      m1.installing = false ∧ m1.percentage = 0 :=
  progress_run_closes listWidgets endpointDown
    { sampleModel ["Node.js", "Ollama"] "" with installing := true } 2 (by decide) rfl

/-- C7 as stated fails: the initial scripts list has no duplicates, and `scriptMsg` with a
name already in it yields a list with that name twice. -/
theorem script_append_duplicates :
    (sampleModel [] "").scripts.Nodup ∧
    ∃ m1 cmds, Update listWidgets endpointDown (sampleModel [] "") (.scriptMsg "bootstrap.sh") =
        .ok (m1, cmds) ∧
      m1.scripts = ["cloudcurio_worker_install.sh", "bootstrap.sh", "bootstrap.sh"] ∧
      ¬ m1.scripts.Nodup := by
  refine ⟨by simp [sampleModel], ?_⟩
  obtain ⟨cmds, hu⟩ := update_scriptMsg listWidgets endpointDown (sampleModel [] "") "bootstrap.sh"
  exact ⟨_, cmds, hu, by simp [sampleModel], by simp [sampleModel]⟩

/-- C7 amended: for every state whose scripts list has no duplicates and every name s,
`scriptMsg{s}` yields the old list followed by s, appended whether or not it was present; the
result has no duplicates exactly when s was not in the old list, and delivering the same
message twice yields the old list followed by s twice. -/
theorem update_script_appends (W : Widgets) (httpPost : String → PostOutcome) (m : model W)
    (s : String) (h : m.scripts.Nodup) :
    ∃ m1 cmds1 m2 cmds2,
      Update W httpPost m (.scriptMsg s) = .ok (m1, cmds1) ∧
      m1.scripts = m.scripts ++ [s] ∧
      (m1.scripts.Nodup ↔ s ∉ m.scripts) ∧
      Update W httpPost m1 (.scriptMsg s) = .ok (m2, cmds2) ∧
      m2.scripts = m.scripts ++ [s, s] := by
  obtain ⟨cmds1, h1⟩ := update_scriptMsg W httpPost m s
  obtain ⟨cmds2, h2⟩ := update_scriptMsg W httpPost { m with scripts := m.scripts ++ [s] } s
  refine ⟨_, cmds1, _, cmds2, h1, rfl, ?_, h2, by simp⟩
  simp [List.nodup_append, h]

theorem update_script_appends_witness :
    ∃ m1 cmds1 m2 cmds2,
      Update listWidgets endpointDown (sampleModel [] "") (.scriptMsg "a.sh") = .ok (m1, cmds1) ∧
      m1.scripts = (sampleModel [] "").scripts ++ ["a.sh"] ∧
      (m1.scripts.Nodup ↔ "a.sh" ∉ (sampleModel [] "").scripts) ∧
      Update listWidgets endpointDown m1 (.scriptMsg "a.sh") = .ok (m2, cmds2) ∧
      m2.scripts = (sampleModel [] "").scripts ++ ["a.sh", "a.sh"] :=
  update_script_appends listWidgets endpointDown (sampleModel [] "") "a.sh"
    (by simp [sampleModel])

/-- C10 as stated fails: on the suggestion key with the prompt "llm", `Update` run against
an unreachable endpoint stores the error, run against an answering endpoint it stores the
answer; the two results differ although state and event are the same. -/
theorem update_depends_on_endpoint :
    (∃ m1 cmds, Update listWidgets endpointDown (sampleModel [] "llm") (.KeyMsg "a") =
        .ok (m1, cmds) ∧ m1.err = some "connection refused" ∧
        m1.aiSuggestion = "AI ready: Ask for install suggestions...") ∧
    (∃ m2 cmds, Update listWidgets endpointUp (sampleModel [] "llm") (.KeyMsg "a") =
        .ok (m2, cmds) ∧ m2.err = none ∧ m2.aiSuggestion = "Install Ollama first") ∧
    Update listWidgets endpointDown (sampleModel [] "llm") (.KeyMsg "a") ≠
      Update listWidgets endpointUp (sampleModel [] "llm") (.KeyMsg "a") := by
  have hp : listWidgets.textinputValue (sampleModel [] "llm").textinput ≠ "" := by
    simp [listWidgets, sampleModel]
  have hd := updateSwitch_ai_failed listWidgets endpointDown (sampleModel [] "llm")
    "connection refused" hp rfl
  have hu := updateSwitch_ai_answered listWidgets endpointUp (sampleModel [] "llm")
    "Install Ollama first" hp rfl
  have e1 : Update listWidgets endpointDown (sampleModel [] "llm") (.KeyMsg "a") =
      .ok ({ sampleModel [] "llm" with err := some "connection refused" }, []) := by
    rw [Update, hd]
    simp [sampleModel, listWidgets, teaBatch]
  have e2 : Update listWidgets endpointUp (sampleModel [] "llm") (.KeyMsg "a") =
      .ok ({ sampleModel [] "llm" with aiSuggestion := "Install Ollama first" }, []) := by
    rw [Update, hu]
    simp [sampleModel, listWidgets, teaBatch]
  refine ⟨⟨_, _, e1, rfl, rfl⟩, ⟨_, _, e2, rfl, rfl⟩, ?_⟩
  rw [e1, e2]
  intro hne
  have herr := congrArg (fun r : Except Panic (model listWidgets × List (Cmd listWidgets)) =>
    match r with
    | .ok (m, _) => m.err
    | .error _ => none) hne
  simp [sampleModel] at herr

/-- C10 amended: the result of `Update` is determined by the state, the event and, on the
suggestion key with a non-empty prompt only, the answer of the suggestion endpoint to the
request made inside `Update`: two runs on the same state and event agree whenever the two
services answer that request alike, and for every other event or an empty prompt they agree
whatever the services answer. -/
theorem update_determined (W : Widgets) (w1 w2 : String → PostOutcome) (m : model W) (msg : Msg)
    (h : msg = .KeyMsg "a" → W.textinputValue m.textinput ≠ "" →
      w1 ("Suggest install for: " ++ W.textinputValue m.textinput ++ " in CloudCurio") =
        w2 ("Suggest install for: " ++ W.textinputValue m.textinput ++ " in CloudCurio")) :
    Update W w1 m msg = Update W w2 m msg := by
  have hs : updateSwitch W w1 m msg = updateSwitch W w2 m msg := by
    cases msg with
    | KeyMsg key =>
      simp only [updateSwitch]
      exact updateKey_congr W w1 w2 m key (fun hk hp => h (by rw [hk]) hp)
    | _ => rfl
  simp [Update, hs]

theorem update_determined_witness :
    endpointDown "Suggest install for: other in CloudCurio" ≠
        endpointDownForLlm "Suggest install for: other in CloudCurio" ∧
      Update listWidgets endpointDown (sampleModel [] "llm") (.KeyMsg "a") =
        Update listWidgets endpointDownForLlm (sampleModel [] "llm") (.KeyMsg "a") :=
  ⟨by simp [endpointDown, endpointDownForLlm, endpointUp],
    update_determined listWidgets endpointDown endpointDownForLlm (sampleModel [] "llm")
      (.KeyMsg "a") (fun _ _ => by simp [endpointDown, endpointDownForLlm, listWidgets, sampleModel])⟩

/-- C1 fails on the code for two items: with every installation succeeding, `startInstall`
invokes the install mechanism for the first item only and its one message is
`installProgressMsg{50}`, not `installProgressMsg{100}` after two invocations. -/
theorem startInstall_stops_after_first :
    startInstall ansibleOk ["Node.js", "Ollama"] = (["Node.js"], .installProgressMsg 50) ∧
    (startInstall ansibleOk ["Node.js", "Ollama"]).1 ≠ ["Node.js", "Ollama"] ∧
    (startInstall ansibleOk ["Node.js", "Ollama"]).2 ≠ .installProgressMsg 100 := by
  have h50 : ((100 : ℚ) / 2) = 50 := by norm_num
  have e : startInstall ansibleOk ["Node.js", "Ollama"] = (["Node.js"], .installProgressMsg 50) := by
    simp [startInstall, ansibleOk, List.enum, List.enumFrom, h50]
  refine ⟨e, ?_, ?_⟩
  · rw [e]; simp
  · rw [e]; simp

/-- C8 fails on the code: on a body that is not JSON, on an object without "choices", on a
choice without a message and on a content that is not a string `getAISuggestion` panics on a
type assertion, and on an empty choices array it panics on the index; none of these returns an
error value. -/
theorem getAISuggestion_panics_on_malformed :
    getAISuggestion (fun _ => .response (.notJson "502 Bad Gateway")) "llm" =
      .error .typeAssertion ∧
    getAISuggestion (fun _ => .response (.json (.object [("error", .string "no model")]))) "llm" =
      .error .typeAssertion ∧
    getAISuggestion (fun _ => .response (.json (.object [("choices", .array [])]))) "llm" =
      .error .indexOutOfRange ∧
    getAISuggestion (fun _ => .response (.json (.object [("choices",
      .array [.object [("index", .number 0)]])]))) "llm" = .error .typeAssertion ∧
    getAISuggestion (fun _ => .response (.json (.object [("choices",
      .array [.object [("message", .object [("content", .null)])]])]))) "llm" =
      .error .typeAssertion := by
  refine ⟨?_, ?_, ?_, ?_, ?_⟩ <;>
    simp [getAISuggestion, unmarshalMap, mapIndex, assertArray, assertMap, assertString, indexZero]

/-- C9 fails on the code when the search succeeds with fewer than three results: with no
result, or with two results in a slice of capacity two, the expression `[:3]` panics; with
two results in a backing array of capacity four the loop reaches a nil entry and panics. In
none of these cases is `githubInspoMsg` returned. -/
theorem fetchGitHubInspo_panics_below_three :
    fetchGitHubInspo (fun _ => .ok ⟨[], []⟩) (fun _ _ => true) (some ⟨"token"⟩) =
      .error .sliceBounds ∧
    fetchGitHubInspo (fun _ => .ok ⟨[some repoBubbletea, some repoBubbles], []⟩)
      (fun _ _ => true) (some ⟨"token"⟩) = .error .sliceBounds ∧
    fetchGitHubInspo (fun _ => .ok ⟨[some repoBubbletea, some repoBubbles], [none, none]⟩)
      (fun _ _ => true) (some ⟨"token"⟩) = .error .nilDereference := by
  refine ⟨?_, ?_, ?_⟩ <;>
    simp [fetchGitHubInspo, RepoSlice.resliceTo, cloneTop, deref, repoBubbletea, repoBubbles]

end AnsibleInstaller
